import Mathlib

/-!
Verification of the Tock kernel components against their specification.

This file gives a shallow embedding, in Lean 4, of the parts of the
repository that the checked properties talk about:

* `kernel/src/process_checker/signature.rs` — the signature credential
  checker (`AppCheckerSignature`), in particular `to_short_id`;
* `kernel/src/process_checker.rs` — the runnability predicate
  `is_runnable` and the checker machine callback `check_done`;
* `kernel/src/process_binary.rs` — `ProcessBinary::create`;
* `capsules/ecdsa_sw/src/p256_verifier.rs` — the software ECDSA P-256
  verifier (`verify`, `activate_key`, `handle_deferred_call`);
* `capsules/extra/src/restrict_resource.rs` — `CommandRestrictions::command`;
* `capsules/extra/src/screen_split.rs` — `calculate_absolute_frame`;
* `chips/virtio/src/devices/virtio_gpu.rs` — the `Screen` implementation
  of the VirtIO GPU driver (`set_write_frame`, `write`, and the draw
  state machine).

Machine integers (`u8`, `u16`, `u32`, `usize`) are modelled as `Nat`,
with explicit bound checks mirroring the `try_into`, `checked_add`,
`checked_sub` and `checked_mul` calls of the source.  A Rust `panic`
(failed `assert!` or `unwrap`) is modelled by returning `none` from an
`Option`-valued function.  External types that the repository only
consumes (the parsed TBF header, the `Process` trait, buffers) are
modelled as records or opaque identifiers carrying exactly the data the
embedded code reads from them.
-/

/-- Subset of the shared kernel error-code enumeration (`ErrorCode`)
used by the embedded components. -/
inductive ErrorCode where
  | FAIL
  | BUSY
  | ALREADY
  | INVAL
  | SIZE
  | NOSUPPORT
deriving DecidableEq, Repr

/-- Decidable equality for `Except` results, used to evaluate the
embedded functions on concrete inputs. -/
instance {e a : Type} [DecidableEq e] [DecidableEq a] :
    DecidableEq (Except e a) := fun x y =>
  match x, y with
  | Except.ok v, Except.ok w =>
    if h : v = w then isTrue (by rw [h]) else isFalse (by simp [h])
  | Except.error v, Except.error w =>
    if h : v = w then isTrue (by rw [h]) else isFalse (by simp [h])
  | Except.ok _, Except.error _ => isFalse (by simp)
  | Except.error _, Except.ok _ => isFalse (by simp)

/-- Compact process identity, from the kernel `process` module:
either kernel-assigned (`LocallyUnique`) or a fixed non-zero 32-bit
value (`Fixed`).  The `NonZeroU32` payload is modelled as a `Nat`
(the construction sites check for zero explicitly). -/
inductive ShortID where
  | LocallyUnique
  | Fixed (id : Nat)
deriving DecidableEq, Repr

/-! ## Signature checker: `AppCheckerSignature::to_short_id`
(`kernel/src/process_checker/signature.rs`, lines 254–269)

The credential data payload is modelled as a list of bytes. -/

/-- Embedding of `AppCheckerSignature::to_short_id`.  The source reads
the first four payload bytes, combines them big-endian, ORs in the
literal `0x8000000_u32` (seven hex digits, i.e. bit 27), and wraps the
result in `ShortID::Fixed` when it is non-zero. -/
def to_short_id (data : List Nat) : ShortID :=
  if data.length < 4 then
    ShortID.LocallyUnique
  else
    let id : Nat :=
      0x8000000 |||
      (data.getD 0 0 <<< 24) |||
      (data.getD 1 0 <<< 16) |||
      (data.getD 2 0 <<< 8) |||
      data.getD 3 0
    if id ≠ 0 then ShortID.Fixed id else ShortID.LocallyUnique

/-! ## Runnability predicate: `is_runnable`
(`kernel/src/process_checker.rs`, lines 111–178) -/

/-- Process execution states consulted by `is_runnable`.  The `State`
enumeration itself lives in the kernel `process` module outside the
checked sources; the five constructors here are the ones the embedded
code and the specification mention. -/
inductive PState where
  | CredentialsUnchecked
  | CredentialsFailed
  | CredentialsApproved
  | Running
  | Terminated
deriving DecidableEq, Repr

/-- View of the `Process` trait object as read by `is_runnable`:
its state, short ID, binary version, and the result of `is_running()`.
Modelled from the spec for the external `Process` trait: `is_running`
reports whether the process is currently running. -/
structure Process where
  state : PState
  short_app_id : ShortID
  binary_version : Nat
  running : Bool
deriving DecidableEq, Repr

/-- Loop body of `is_runnable`: whether `other` blocks `process` from
running (the `blocks` closure in the source). -/
def blocksProcess (differ : Process → Process → Bool) (process : Process)
    (other : Option Process) : Bool :=
  match other with
  | none => false
  | some other =>
    let creds_approve :=
      other.state != PState.CredentialsUnchecked &&
      other.state != PState.CredentialsFailed
    let different :=
      differ process other && other.short_app_id != process.short_app_id
    let newer := decide (other.binary_version > process.binary_version)
    let running := other.running
    let runnable :=
      other.state != PState.CredentialsUnchecked &&
      other.state != PState.CredentialsFailed &&
      other.state != PState.Terminated
    creds_approve && !different && ((newer && runnable) || running)

/-- Embedding of `is_runnable`.  A process is immediately not runnable
unless its state is `CredentialsApproved` or `Terminated`; otherwise it
is runnable iff no entry of the process table blocks it. -/
def is_runnable (process : Process) (processes : List (Option Process))
    (differ : Process → Process → Bool) : Bool :=
  if process.state != PState.CredentialsApproved &&
      process.state != PState.Terminated then
    false
  else
    processes.all (fun other => ! blocksProcess differ process other)

/-! ## Process binary creation: `ProcessBinary::create`
(`kernel/src/process_binary.rs`, lines 143–275)

The TBF header parser is an external library (`tock_tbf`); `create` is
therefore parameterized by the outcome of `parse_tbf_header` on the
header slice, and the parsed header is modelled as a record with the
accessors the embedded code reads. -/

/-- Opaque stand-in for `tock_tbf::types::TbfParseError` values
propagated by `create` (their structure is never inspected). -/
structure TbfParseError where
  code : Nat
deriving DecidableEq, Repr

/-- View of the parsed TBF header (`tock_tbf::types::TbfHeader`)
restricted to the accessors `ProcessBinary::create` calls:
`enabled()`, `get_kernel_version()`, `get_binary_end()`,
`get_fixed_address_flash()` and `get_protected_size()`. -/
structure TbfHeader where
  enabled : Bool
  kernel_version : Option (Nat × Nat)
  binary_end : Nat
  fixed_address_flash : Option Nat
  protected_size : Nat
deriving DecidableEq, Repr

/-- Embedding of the `ProcessBinaryError` enumeration. -/
inductive ProcessBinaryError where
  | TbfHeaderNotFound
  | TbfHeaderParseFailure (err : TbfParseError)
  | NotEnoughFlash
  | IncompatibleKernelVersion (version : Option (Nat × Nat))
  | IncorrectFlashAddress (actual_address expected_address : Nat)
  | NotEnabledProcess
deriving DecidableEq, Repr

/-- Embedding of the `ProcessBinary` record returned on success: the
parsed header, the footer byte range within the flash slice, and the
length of the whole flash slice. -/
structure ProcessBinary where
  header : TbfHeader
  footers_start : Nat
  footers_end : Nat
  flash_len : Nat
deriving DecidableEq, Repr

/-- Footer-region and fixed-flash-address steps of `create` (the
straight-line tail after the kernel-version check, shared by both of
its branches). -/
def ProcessBinary.createTail (app_flash_len app_flash_addr : Nat)
    (tbf_header : TbfHeader) : Except ProcessBinaryError ProcessBinary :=
  let binary_end := tbf_header.binary_end
  let total_size := app_flash_len
  if binary_end > total_size then
    Except.error ProcessBinaryError.NotEnoughFlash
  else
    let fixedCheck :=
      match tbf_header.fixed_address_flash with
      | some fixed_flash_start =>
        let actual_address :=
          (app_flash_addr + tbf_header.protected_size) % 2 ^ 32
        let expected_address := fixed_flash_start
        if actual_address ≠ expected_address then
          some (ProcessBinaryError.IncorrectFlashAddress
            actual_address expected_address)
        else
          none
      | none => none
    match fixedCheck with
    | some e => Except.error e
    | none =>
      Except.ok
        { header := tbf_header
          footers_start := binary_end
          footers_end := total_size
          flash_len := app_flash_len }

/-- Embedding of `ProcessBinary::create`.  `app_flash_len` is the
length of the flash slice, `app_flash_addr` its address (the value of
`app_flash.as_ptr() as u32`), and `parse` the result of the external
`parse_tbf_header` call on the first `header_length` bytes.  The `u32`
addition computing the actual flash address wraps modulo `2 ^ 32`. -/
def ProcessBinary.create (app_flash_len app_flash_addr header_length : Nat)
    (parse : Except TbfParseError TbfHeader)
    (require_kernel_version : Bool)
    (kernel_major kernel_minor : Nat) :
    Except ProcessBinaryError ProcessBinary :=
  -- Get a slice for just the app header; error if the flash is shorter.
  if header_length > app_flash_len then
    Except.error ProcessBinaryError.NotEnoughFlash
  else
    match parse with
    | Except.error err =>
      Except.error (ProcessBinaryError.TbfHeaderParseFailure err)
    | Except.ok tbf_header =>
      if !tbf_header.enabled then
        Except.error ProcessBinaryError.NotEnabledProcess
      else
        match tbf_header.kernel_version with
        | some (major, minor) =>
          if kernel_major ≠ major ∨ kernel_minor < minor then
            Except.error
              (ProcessBinaryError.IncompatibleKernelVersion (some (major, minor)))
          else
            ProcessBinary.createTail app_flash_len app_flash_addr tbf_header
        | none =>
          if require_kernel_version then
            Except.error (ProcessBinaryError.IncompatibleKernelVersion none)
          else
            ProcessBinary.createTail app_flash_len app_flash_addr tbf_header

/-! ## Checker machine callback: `check_done`
(`kernel/src/process_checker.rs`, lines 447–503)

`ProcessBinary` values held by the machine are referred to by opaque
identifiers (`Nat`), since `check_done` never looks inside them. -/

/-- Embedding of the `CheckResult` enumeration returned by a
credentials checking policy. -/
inductive CheckResult where
  | Accept
  | Pass
  | Reject
deriving DecidableEq, Repr

/-- Error values the `check_done` code actually constructs and hands to
the machine client.  The reject branch of the source builds
`ProcessCheckError::CredentialRejected` — with no payload; no footer
index is placed into the notification. -/
inductive EmittedCheckError where
  | noAcceptedCredentials
  | credentialRejected
  | internalError
deriving DecidableEq, Repr

/-- The `ProcessCheckError` enumeration as declared (lines 24–39 of the
source): its rejection variant `CredentialsRejected(u32)` carries the
index of the rejected credential. -/
inductive ProcessCheckError where
  | CredentialsNotAccepted
  | CredentialsRejected (idx : Nat)
  | InternalError
deriving DecidableEq, Repr

/-- Mutable state of `ProcessCheckerMachine` read and written by
`check_done`: the footer index and the held process binary. -/
structure CheckerMachine where
  footer_index : Nat
  process_binary : Option Nat
deriving DecidableEq, Repr

/-- Embedding of `ProcessCheckerMachine::check_done`.  Returns the
machine state after the callback and the notification passed to the
machine client (`client.done(pb, result)`), if any.  On `Accept` and on
`Reject` the held binary is taken out of the machine and the client is
notified; on `Pass` and on a policy error the footer index is
incremented and no notification happens inside the callback (the
source then re-enters the walking loop, whose behaviour is settled by
the `check` routine, not here). -/
def checkDone (m : CheckerMachine) (result : Except ErrorCode CheckResult) :
    CheckerMachine × Option (Option Nat × Except EmittedCheckError Unit) :=
  match result with
  | Except.ok CheckResult.Accept =>
    ({ m with process_binary := none },
      some (m.process_binary, Except.ok ()))
  | Except.ok CheckResult.Pass =>
    ({ m with footer_index := m.footer_index + 1 }, none)
  | Except.ok CheckResult.Reject =>
    ({ m with process_binary := none },
      some (m.process_binary, Except.error EmittedCheckError.credentialRejected))
  | Except.error _ =>
    ({ m with footer_index := m.footer_index + 1 }, none)

/-! ## Software ECDSA P-256 verifier
(`capsules/ecdsa_sw/src/p256_verifier.rs`)

The hash and signature buffers are `&'static mut` references; they are
modelled as opaque identifiers (`Nat`), which lets the theorems track
which buffer is handed back to which callback.  The P-256 arithmetic
itself lives in the vendored `p256` library, so `verify` is
parameterized by the outcomes of `Signature::from_slice` (does the
signature parse?) and `verify_prehash` (does it match?). -/

/-- The private `State` enumeration of the verifier capsule. -/
inductive VerifierState where
  | Verifying
  | ChangingKey (index : Nat)
deriving DecidableEq, Repr

/-- Mutable state of `EcdsaP256SignatureVerifier`: whether a verifying
key decoded at construction, the stashed verification outcome, the two
buffer slots, the deferred-call pending flag, and the operation state.
The deferred call is modelled from the spec of the kernel deferred-call
mechanism: setting it while already set coalesces into one pending
dispatch. -/
structure EcdsaVerifier where
  has_key : Bool
  verified : Bool
  hash_storage : Option Nat
  signature_storage : Option Nat
  deferred_call_set : Bool
  state : Option VerifierState
deriving DecidableEq, Repr

/-- Embedding of `EcdsaP256SignatureVerifier::verify`.  `sig_parses`
is the outcome of `ecdsa::Signature::from_slice(signature)` and
`prehash_ok` the outcome of `vkey.verify_prehash(hash, &sig)` in the
vendored library.  Returns the syscall-style result (errors hand the
two buffers back) together with the capsule state afterwards. -/
def EcdsaVerifier.verify (v : EcdsaVerifier) (hash signature : Nat)
    (sig_parses prehash_ok : Bool) :
    Except (ErrorCode × Nat × Nat) Unit × EcdsaVerifier :=
  if v.has_key then
    if sig_parses then
      (Except.ok (),
        { v with
          verified := prehash_ok
          hash_storage := some hash
          signature_storage := some signature
          state := some VerifierState.Verifying
          deferred_call_set := true })
    else
      (Except.error (ErrorCode.FAIL, hash, signature), v)
  else
    (Except.error (ErrorCode.FAIL, hash, signature), v)

/-- Embedding of the `KeyChange::get_key_count` implementation. -/
def EcdsaVerifier.get_key_count (_v : EcdsaVerifier) : Nat := 1

/-- Embedding of the `KeyChange::activate_key` implementation: the
source stores `State::ChangingKey(index)` and schedules the deferred
call without inspecting `index` at all. -/
def EcdsaVerifier.activate_key (v : EcdsaVerifier) (index : Nat) :
    Except ErrorCode Unit × EcdsaVerifier :=
  (Except.ok (),
    { v with
      state := some (VerifierState.ChangingKey index)
      deferred_call_set := true })

/-- Callbacks the verifier delivers to its registered clients. -/
inductive VerifierCallback where
  | verification_done (result : Bool) (hash signature : Nat)
  | activate_key_done (index : Nat)
deriving DecidableEq, Repr

/-- Embedding of `handle_deferred_call`: dispatch of the pending
deferred call.  `state.take()` decides which single callback fires;
the `Verifying` arm returns the stashed outcome together with the
buffers taken from the two storage slots. -/
def EcdsaVerifier.handle_deferred_call (v : EcdsaVerifier) :
    EcdsaVerifier × List VerifierCallback :=
  let v := { v with deferred_call_set := false }
  match v.state with
  | some VerifierState.Verifying =>
    let v := { v with state := none }
    match v.hash_storage, v.signature_storage with
    | some h, some s =>
      ({ v with hash_storage := none, signature_storage := none },
        [VerifierCallback.verification_done v.verified h s])
    | some _, none => ({ v with hash_storage := none }, [])
    | none, _ => (v, [])
  | some (VerifierState.ChangingKey index) =>
    ({ v with state := none }, [VerifierCallback.activate_key_done index])
  | none => (v, [])

/-! ## Command restriction capsule: `CommandRestrictions::command`
(`capsules/extra/src/restrict_resource.rs`, lines 59–96) -/

/-- Embedding of `AppPermissions`: an app identity and the two
half-open permitted ranges (`core::ops::Range<usize>`), stored as
start/end pairs. -/
structure AppPermissions where
  app_id : ShortID
  permitted_arg1_start : Nat
  permitted_arg1_end : Nat
  permitted_arg2_start : Nat
  permitted_arg2_end : Nat
deriving DecidableEq, Repr

/-- Syscall command return values relevant to the capsule: a `u32`
success payload or a failure with an error code.  The value forwarded
from the wrapped resource is produced by the `driver` parameter of
`command`. -/
inductive CommandReturn where
  | success_u32 (value : Nat)
  | failure (err : ErrorCode)
deriving DecidableEq, Repr

/-- Embedding of `get_app_permitted`: linear scan of the permissions
table for the first entry matching the calling app. -/
def get_app_permitted (permissions : List AppPermissions)
    (short_app_id : ShortID) : Option AppPermissions :=
  match permissions with
  | [] => none
  | perm :: rest =>
    if short_app_id = perm.app_id then some perm
    else get_app_permitted rest short_app_id

/-- Embedding of `CommandRestrictions::command`.  `driver` is the
wrapped resource (`self.driver.command`), `command_num_num` is the
configured count command, and `short_app_id` is the calling process
identity.  Returns the command result together with the call made into
the underlying resource, if any — `none` means the wrapped resource
was never invoked. -/
def CommandRestrictions.command (driver : Nat → Nat → Nat → CommandReturn)
    (permissions : List AppPermissions) (command_num_num : Nat)
    (command_num arg1 arg2 : Nat) (short_app_id : ShortID) :
    CommandReturn × Option (Nat × Nat × Nat) :=
  if command_num = 0 then
    (driver 0 arg1 arg2, some (0, arg1, arg2))
  else
    match get_app_permitted permissions short_app_id with
    | some perm =>
      if command_num = command_num_num then
        (CommandReturn.success_u32
          (perm.permitted_arg1_end - perm.permitted_arg1_start), none)
      else
        let new_arg1 := perm.permitted_arg1_start + arg1
        let new_arg2 := perm.permitted_arg2_start + arg2
        if (perm.permitted_arg1_start ≤ new_arg1 ∧
              new_arg1 < perm.permitted_arg1_end) ∧
            (perm.permitted_arg2_start ≤ new_arg2 ∧
              new_arg2 < perm.permitted_arg2_end) then
          (driver 0 new_arg1 new_arg2, some (0, new_arg1, new_arg2))
        else
          (CommandReturn.failure ErrorCode.NOSUPPORT, none)
    | none => (CommandReturn.failure ErrorCode.NOSUPPORT, none)

/-! ## Screen split multiplexer: `calculate_absolute_frame`
(`capsules/extra/src/screen_split.rs`, lines 314–334) -/

/-- Embedding of the `Frame` rectangle of the screen-split capsule
(coordinates and extents in `usize` pixels). -/
structure Frame where
  x : Nat
  y : Nat
  width : Nat
  height : Nat
deriving DecidableEq, Repr

/-- Embedding of `ScreenSplit::calculate_absolute_frame`: sum the
origins, take the extents from the active frame, then clamp origin and
extents against the far edges of the allotted split frame. -/
def calculate_absolute_frame (split_frame active_frame : Frame) : Frame :=
  let absolute_x := split_frame.x + active_frame.x
  let absolute_y := split_frame.y + active_frame.y
  let absolute_w := active_frame.width
  let absolute_h := active_frame.height
  let absolute_x := min (split_frame.x + split_frame.width) absolute_x
  let absolute_y := min (split_frame.y + split_frame.height) absolute_y
  let absolute_w := min (split_frame.x + split_frame.width - absolute_x) absolute_w
  let absolute_h := min (split_frame.y + split_frame.height - absolute_y) absolute_h
  { x := absolute_x, y := absolute_y, width := absolute_w, height := absolute_h }

/-! ## VirtIO GPU driver
(`chips/virtio/src/devices/virtio_gpu.rs`)

The driver state machine is embedded with its `Screen` entry points
(`set_write_frame`, `write`) and the per-draw continuation functions.
`usize_bits` parameterizes the width of `usize` on the build target
(the source runs on both 32- and 64-bit machines); `u32` conversions
check against `2 ^ 32` exactly as the `try_into` / `checked_add` calls
do.  A `none` result models a Rust panic (failed `assert!`, `unwrap`
or a division by zero).  Virtqueue responses are always the
`OK_NODATA` success response expected by `buffer_chain_callback`; any
other response panics in the source and is outside these theorems. -/

/-- Embedding of the wire-protocol `Rect` (`u32` fields). -/
structure Rect where
  x : Nat
  y : Nat
  width : Nat
  height : Nat
deriving DecidableEq, Repr

/-- Embedding of `Rect::empty()`. -/
def Rect.empty : Rect := { x := 0, y := 0, width := 0, height := 0 }

/-- Embedding of `Rect::is_empty`. -/
def Rect.is_empty (r : Rect) : Bool := r.width = 0 && r.height = 0

/-- Embedding of the `VirtIOGPUState` enumeration. -/
inductive VirtIOGPUState where
  | Uninitialized
  | InitializingResourceCreate2D
  | InitializingResourceAttachBacking
  | InitializingSetScanout
  | InitializingResourceDetachBacking
  | Idle
  | SettingWriteFrame
  | DrawResourceAttachBacking
  | DrawTransferToHost2D
  | DrawResourceFlush
  | DrawResourceDetachBacking
deriving DecidableEq, Repr

/-- Mutable driver state of `VirtIOGPU` touched by the embedded entry
points: the device state, the configured screen dimensions, the
current draw area (`Rect`, relative draw cursor, remaining pixel
budget), the active byte range and current offset of the client write
buffer, whether the client buffer is held (`write_buffer` slot), the
current transfer area, and the deferred-call bookkeeping
(`PendingDeferredCallMask` bit for `SetWriteFrame` plus the deferred
call itself). -/
structure GpuSt where
  state : VirtIOGPUState
  width : Nat
  height : Nat
  draw_rect : Rect
  draw_off_x : Nat
  draw_off_y : Nat
  remaining_pixels : Nat
  buf_start : Nat
  buf_end : Nat
  buf_offset : Nat
  write_buffer_held : Bool
  transfer_rect : Rect
  transfer_pixels : Nat
  pending_set_write_frame : Bool
  deferred_call_set : Bool
deriving DecidableEq, Repr

/-- Embedding of the `Screen::set_write_frame` implementation of the
VirtIO GPU driver.  Checks run in source order: device idle, each
coordinate fits `u32`, the frame fits the screen, and the pixel count
fits `usize`; only then is the draw area stored, the state advanced to
`SettingWriteFrame`, and the deferred call scheduled. -/
def GpuSt.set_write_frame (usize_bits : Nat) (g : GpuSt)
    (x y width height : Nat) : Except ErrorCode Unit × GpuSt :=
  if g.state ≠ VirtIOGPUState.Idle then
    (Except.error ErrorCode.BUSY, g)
  else if x ≥ 2 ^ 32 then (Except.error ErrorCode.INVAL, g)
  else if y ≥ 2 ^ 32 then (Except.error ErrorCode.INVAL, g)
  else if width ≥ 2 ^ 32 then (Except.error ErrorCode.INVAL, g)
  else if height ≥ 2 ^ 32 then (Except.error ErrorCode.INVAL, g)
  else if x + width ≥ 2 ^ 32 then (Except.error ErrorCode.INVAL, g)
  else if y + height ≥ 2 ^ 32 then (Except.error ErrorCode.INVAL, g)
  else if x + width > g.width ∨ y + height > g.height then
    (Except.error ErrorCode.INVAL, g)
  else if width * height ≥ 2 ^ usize_bits then
    -- The `checked_mul(..).ok_or(INVAL)?` is evaluated while building
    -- the tuple handed to `current_draw_area.set`, so the error
    -- propagates before any store happens.
    (Except.error ErrorCode.INVAL, g)
  else
    (Except.ok (),
      { g with
        draw_rect := { x := x, y := y, width := width, height := height }
        draw_off_x := 0
        draw_off_y := 0
        remaining_pixels := width * height
        state := VirtIOGPUState.SettingWriteFrame
        pending_set_write_frame := true
        deferred_call_set := true })

/-- Embedding of the driver side of `handle_deferred_call` for the
`SetWriteFrame` pending call: panics unless the state is
`SettingWriteFrame`, then returns to `Idle`; the returned flag records
that `command_complete(Ok)` was issued to the client. -/
def GpuSt.gpu_handle_deferred_call (g : GpuSt) : Option (GpuSt × Bool) :=
  let g := { g with deferred_call_set := false }
  if g.pending_set_write_frame then
    if g.state ≠ VirtIOGPUState.SettingWriteFrame then
      none
    else
      some ({ g with
        pending_set_write_frame := false
        state := VirtIOGPUState.Idle }, true)
  else
    some (g, false)

/-- Embedding of the `Screen::write` implementation.  The client
buffer is a subslice with active byte range
`active_start .. active_end` of an underlying buffer; its length is
`active_end - active_start`.  Note that the cursor/budget reset for
`continue_write == false` is stored back before the buffer length
validation, exactly as in the source.  Returns `none` on panic,
otherwise the syscall result and the state afterwards. -/
def GpuSt.write (usize_bits : Nat) (g : GpuSt)
    (active_start active_end : Nat) (continue_write : Bool) :
    Option (Except ErrorCode Unit × GpuSt) :=
  if g.state ≠ VirtIOGPUState.Idle then
    some (Except.error ErrorCode.BUSY, g)
  else
    let buffer_len := active_end - active_start
    let reset :=
      if !continue_write then
        if g.draw_rect.width * g.draw_rect.height ≥ 2 ^ usize_bits then
          none
        else
          some (0, 0, g.draw_rect.width * g.draw_rect.height)
      else
        some (g.draw_off_x, g.draw_off_y, g.remaining_pixels)
    match reset with
    | none => none
    | some (off_x, off_y, remaining) =>
      let g := { g with
        draw_off_x := off_x
        draw_off_y := off_y
        remaining_pixels := remaining }
      if buffer_len % 4 ≠ 0 then
        some (Except.error ErrorCode.INVAL, g)
      else if buffer_len / 4 > remaining then
        some (Except.error ErrorCode.SIZE, g)
      else
        -- `assert!(self.write_buffer.replace(..).is_none())`
        if g.write_buffer_held then
          none
        else
          some (Except.ok (),
            { g with
              buf_start := active_start
              buf_end := active_end
              buf_offset := 0
              write_buffer_held := true
              state := VirtIOGPUState.DrawResourceAttachBacking })

/-- Outcome of one run of `continue_draw_transfer_to_host_2d`: either
a `TRANSFER_TO_HOST_2D` command for a sub-rectangle at a byte offset,
or the final `RESOURCE_DETACH_BACKING` command. -/
inductive DrawOutcome where
  | transfer (r : Rect) (offset : Nat) (g : GpuSt)
  | detach (g : GpuSt)
deriving Repr

/-- Embedding of `continue_draw_transfer_to_host_2d`.  Computes the
pixel count of the next axis-aligned transfer following the three
source branches (cursor at the left edge with rows left, cursor past
the last row, cursor mid-row), then either issues the transfer or,
when zero pixels remain to transfer, issues the detach.  `none` models
a panic (failed `checked_sub`, failed `assert!`, or the division by a
zero `draw_rect.width`). -/
def GpuSt.drawStep (g : GpuSt) : Option DrawOutcome :=
  if g.buf_offset > g.buf_end - g.buf_start then
    none
  else
    let write_buffer_remaining_bytes := g.buf_end - g.buf_start - g.buf_offset
    if write_buffer_remaining_bytes % 4 ≠ 0 then
      none
    else
      let write_buffer_remaining_pixels := write_buffer_remaining_bytes / 4
      if write_buffer_remaining_pixels > g.remaining_pixels then
        none
      else
        let transfer_pixels? : Option Nat :=
          if g.draw_rect.is_empty then
            some 0
          else if g.draw_off_x = 0 then
            if ¬(g.draw_off_y ≤ g.draw_rect.height ∨ g.remaining_pixels = 0) then
              none
            else if g.draw_off_y ≥ g.draw_rect.height then
              if g.draw_rect.width < write_buffer_remaining_pixels then
                none
              else
                some write_buffer_remaining_pixels
            else if g.draw_rect.width = 0 then
              none
            else
              some (write_buffer_remaining_pixels / g.draw_rect.width *
                g.draw_rect.width)
          else
            if g.draw_off_x > g.draw_rect.width then
              none
            else
              some (min (g.draw_rect.width - g.draw_off_x)
                write_buffer_remaining_pixels)
        match transfer_pixels? with
        | none => none
        | some transfer_pixels =>
          if transfer_pixels = 0 then
            some (DrawOutcome.detach
              { g with state := VirtIOGPUState.DrawResourceDetachBacking })
          else
            if g.draw_rect.x + g.draw_off_x ≥ 2 ^ 32 then
              none
            else if g.draw_rect.y + g.draw_off_y ≥ 2 ^ 32 then
              none
            else if g.draw_rect.width = 0 then
              none
            else
              let transfer_rect : Rect :=
                { x := g.draw_rect.x + g.draw_off_x
                  y := g.draw_rect.y + g.draw_off_y
                  width := min transfer_pixels g.draw_rect.width
                  height :=
                    (transfer_pixels + g.draw_rect.width - 1) / g.draw_rect.width }
              some (DrawOutcome.transfer transfer_rect g.buf_offset
                { g with
                  transfer_rect := transfer_rect
                  transfer_pixels := transfer_pixels
                  state := VirtIOGPUState.DrawTransferToHost2D })

/-- Embedding of the draw-cursor bookkeeping of
`continue_draw_resource_flushed` (everything before its tail call back
into `continue_draw_transfer_to_host_2d`): set the cursor to the
bottom-right of the just-drawn area, wrap to the next row when the
cursor hits the right edge, debit the pixel budget, and advance the
buffer offset. -/
def GpuSt.flushedAdvance (usize_bits : Nat) (g : GpuSt) : Option GpuSt :=
  let drawn_area := g.transfer_rect
  let drawn_pixels := g.transfer_pixels
  if drawn_area.x + drawn_area.width ≥ 2 ^ 32 then
    none
  else if g.draw_rect.x > drawn_area.x + drawn_area.width then
    none
  else if drawn_area.y + drawn_area.height ≥ 2 ^ 32 then
    none
  else if g.draw_rect.y > drawn_area.y + drawn_area.height then
    none
  else
    let off_x := drawn_area.x + drawn_area.width - g.draw_rect.x
    let off_y := drawn_area.y + drawn_area.height - g.draw_rect.y
    if off_x > g.draw_rect.width then
      none
    else
      let wrapped :=
        if off_x = g.draw_rect.width then
          if off_y + 1 ≥ 2 ^ 32 then none else some (0, off_y + 1)
        else
          some (off_x, off_y)
      match wrapped with
      | none => none
      | some (off_x, off_y) =>
        if g.remaining_pixels < drawn_pixels then
          none
        else if drawn_pixels * 4 ≥ 2 ^ usize_bits then
          none
        else
          some { g with
            draw_off_x := off_x
            draw_off_y := off_y
            remaining_pixels := g.remaining_pixels - drawn_pixels
            buf_offset := g.buf_offset + drawn_pixels * 4 }

/-- Control-queue commands and client callbacks observed during one
draw sequence. -/
inductive GpuEvent where
  | cmdTransferToHost (r : Rect) (offset : Nat)
  | cmdResourceFlush (r : Rect)
  | cmdResourceDetachBacking
  | cbWriteComplete (ok : Bool)
deriving DecidableEq, Repr

/-- Run the draw state machine from `DrawResourceAttachBacking`
onwards, feeding each issued command its `OK_NODATA` response, until
the final detach response triggers `write_complete` (the behaviour of
`buffer_chain_callback` composed with the per-state continuations:
attach response runs `continue_draw_transfer_to_host_2d`; a transfer
response runs `continue_draw_resource_flush`, which flushes the same
sub-rectangle; a flush response runs `continue_draw_resource_flushed`;
the detach response runs `continue_draw_resource_detached_backing`,
returning to `Idle` and issuing `write_complete(.., Ok(()))`).
Returns the ordered list of commands and callbacks, or `none` on a
panic or fuel exhaustion. -/
def GpuSt.drawRun (usize_bits : Nat) : Nat → GpuSt →
    Option (List GpuEvent × GpuSt)
  | 0, _ => none
  | fuel + 1, g =>
    match g.drawStep with
    | none => none
    | some (DrawOutcome.detach g1) =>
      -- Detach command issued; on its response the buffers come back,
      -- the state returns to `Idle`, and the client sees
      -- `write_complete(subslice, Ok(()))`.
      if g1.write_buffer_held then
        some ([GpuEvent.cmdResourceDetachBacking, GpuEvent.cbWriteComplete true],
          { g1 with
            state := VirtIOGPUState.Idle
            write_buffer_held := false })
      else
        none
    | some (DrawOutcome.transfer r offset g1) =>
      match g1.flushedAdvance usize_bits with
      | none => none
      | some g2 =>
        match GpuSt.drawRun usize_bits fuel g2 with
        | none => none
        | some (events, gF) =>
          some (GpuEvent.cmdTransferToHost r offset ::
            GpuEvent.cmdResourceFlush r :: events, gF)

/-- Total pixel count of the `TRANSFER_TO_HOST_2D` commands within an
event list. -/
def transferredPixels (events : List GpuEvent) : Nat :=
  match events with
  | [] => 0
  | GpuEvent.cmdTransferToHost r _ :: rest =>
    r.width * r.height + transferredPixels rest
  | _ :: rest => transferredPixels rest

/-! ## Concrete test vectors used by the evaluation theorems -/

/-- Parsed TBF header declaring kernel version `(2, 1)`. -/
def tbfHeaderExampleSome : TbfHeader :=
  { enabled := true, kernel_version := some (2, 1), binary_end := 50,
    fixed_address_flash := none, protected_size := 0 }

/-- Parsed TBF header with no kernel-version declaration. -/
def tbfHeaderExampleNone : TbfHeader :=
  { enabled := true, kernel_version := none, binary_end := 50,
    fixed_address_flash := none, protected_size := 0 }

/-- Process P1 of the runnability scenario: binary version 2, state
`Running`, same short ID as P2. -/
def processExRunning : Process :=
  { state := PState.Running, short_app_id := ShortID.Fixed 1,
    binary_version := 2, running := true }

/-- Process P1 of the runnability scenario with its state changed to
`Terminated` (and therefore no longer running). -/
def processExTerminated : Process :=
  { state := PState.Terminated, short_app_id := ShortID.Fixed 1,
    binary_version := 2, running := false }

/-- Process P2 of the runnability scenario: binary version 1, state
`CredentialsApproved`, same short ID as P1. -/
def processExApproved : Process :=
  { state := PState.CredentialsApproved, short_app_id := ShortID.Fixed 1,
    binary_version := 1, running := false }

/-- An underlying syscall-driven resource used as the wrapped driver
when evaluating `CommandRestrictions::command` concretely. -/
def drvExample : Nat → Nat → Nat → CommandReturn :=
  fun _ _ _ => CommandReturn.success_u32 99

/-- Freshly constructed ECDSA verifier whose public key decoded
successfully: no stored buffers, no pending state. -/
def ecdsaVerifierExample : EcdsaVerifier :=
  { has_key := true, verified := false, hash_storage := none,
    signature_storage := none, deferred_call_set := false, state := none }

/-- Freshly initialized 4x2-pixel VirtIO GPU driver in the `Idle`
state, before any write frame is configured. -/
def gpuExFresh : GpuSt :=
  { state := VirtIOGPUState.Idle, width := 4, height := 2,
    draw_rect := Rect.empty, draw_off_x := 0, draw_off_y := 0,
    remaining_pixels := 0, buf_start := 0, buf_end := 0, buf_offset := 0,
    write_buffer_held := false, transfer_rect := Rect.empty,
    transfer_pixels := 0, pending_set_write_frame := false,
    deferred_call_set := false }

/-- Driver state right after `set_write_frame(0, 0, 4, 2)` was
accepted, with the completion deferred call still pending. -/
def gpuExFrameSet : GpuSt :=
  { state := VirtIOGPUState.SettingWriteFrame, width := 4, height := 2,
    draw_rect := { x := 0, y := 0, width := 4, height := 2 },
    draw_off_x := 0, draw_off_y := 0, remaining_pixels := 8,
    buf_start := 0, buf_end := 0, buf_offset := 0,
    write_buffer_held := false, transfer_rect := Rect.empty,
    transfer_pixels := 0, pending_set_write_frame := true,
    deferred_call_set := true }

/-- Driver state after the `set_write_frame` deferred call completed:
idle, with the 4x2 write frame at the origin configured. -/
def gpuExIdle : GpuSt :=
  { state := VirtIOGPUState.Idle, width := 4, height := 2,
    draw_rect := { x := 0, y := 0, width := 4, height := 2 },
    draw_off_x := 0, draw_off_y := 0, remaining_pixels := 8,
    buf_start := 0, buf_end := 0, buf_offset := 0,
    write_buffer_held := false, transfer_rect := Rect.empty,
    transfer_pixels := 0, pending_set_write_frame := false,
    deferred_call_set := false }

/-- Driver state after accepting a 24-byte (6-pixel) write into the
4x2 frame: client buffer attached, draw sequence about to start. -/
def gpuExWrite6 : GpuSt :=
  { gpuExIdle with
    buf_end := 24
    write_buffer_held := true
    state := VirtIOGPUState.DrawResourceAttachBacking }

/-- Driver state after accepting an 8-byte (2-pixel) write into the
4x2 frame. -/
def gpuExWrite2 : GpuSt :=
  { gpuExIdle with
    buf_end := 8
    write_buffer_held := true
    state := VirtIOGPUState.DrawResourceAttachBacking }

/-- Command/callback sequence the driver produces for the 6-pixel
write. -/
def gpuExEvents6 : List GpuEvent :=
  [GpuEvent.cmdTransferToHost { x := 0, y := 0, width := 4, height := 1 } 0,
   GpuEvent.cmdResourceFlush { x := 0, y := 0, width := 4, height := 1 },
   GpuEvent.cmdTransferToHost { x := 0, y := 2, width := 2, height := 1 } 16,
   GpuEvent.cmdResourceFlush { x := 0, y := 2, width := 2, height := 1 },
   GpuEvent.cmdResourceDetachBacking,
   GpuEvent.cbWriteComplete true]

/-! ## Helper lemmas -/

/-- The footer-region/fixed-address tail of `create` never produces an
`IncompatibleKernelVersion` error (its errors are `NotEnoughFlash` and
`IncorrectFlashAddress` only). -/
theorem createTail_ne_ikv (a b : Nat) (hdr : TbfHeader) (v : Option (Nat × Nat)) :
    ProcessBinary.createTail a b hdr ≠
      Except.error (ProcessBinaryError.IncompatibleKernelVersion v) := by
  unfold ProcessBinary.createTail
  dsimp only
  rcases hfa : hdr.fixed_address_flash with _ | fs <;>
    simp only [hfa] <;> split_ifs <;> simp

/-- With a parsed, enabled header declaring kernel version
`(maj, min)`, `create` returns `IncompatibleKernelVersion (some (maj,
min))` exactly when the major versions differ or the requested minor
version exceeds the running one. -/
theorem create_ikv_some_iff (flash_len flash_addr header_len : Nat)
    (hdr : TbfHeader) (require_kernel_version : Bool) (kmaj kmin : Nat)
    (hlen : header_len ≤ flash_len) (hen : hdr.enabled = true)
    (maj min : Nat) (hkv : hdr.kernel_version = some (maj, min)) :
    (ProcessBinary.create flash_len flash_addr header_len (Except.ok hdr)
        require_kernel_version kmaj kmin =
      Except.error
        (ProcessBinaryError.IncompatibleKernelVersion (some (maj, min))) ↔
      (kmaj ≠ maj ∨ kmin < min)) := by
  unfold ProcessBinary.create
  rw [if_neg (by omega)]
  dsimp only
  rw [hen]
  simp only [Bool.not_true, Bool.false_eq_true, if_false]
  simp only [hkv]
  by_cases hc : kmaj ≠ maj ∨ kmin < min
  · rw [if_pos hc]
    simp [hc]
  · rw [if_neg hc]
    simpa [hc] using createTail_ne_ikv flash_len flash_addr hdr (some (maj, min))

/-- With a parsed, enabled header declaring no kernel version,
`create` returns `IncompatibleKernelVersion none` exactly when
`require_kernel_version` is set. -/
theorem create_ikv_none_iff (flash_len flash_addr header_len : Nat)
    (hdr : TbfHeader) (require_kernel_version : Bool) (kmaj kmin : Nat)
    (hlen : header_len ≤ flash_len) (hen : hdr.enabled = true)
    (hkv : hdr.kernel_version = none) :
    (ProcessBinary.create flash_len flash_addr header_len (Except.ok hdr)
        require_kernel_version kmaj kmin =
      Except.error (ProcessBinaryError.IncompatibleKernelVersion none) ↔
      require_kernel_version = true) := by
  unfold ProcessBinary.create
  rw [if_neg (by omega)]
  dsimp only
  rw [hen]
  simp only [Bool.not_true, Bool.false_eq_true, if_false]
  simp only [hkv]
  cases require_kernel_version with
  | true => simp
  | false => simpa using createTail_ne_ikv flash_len flash_addr hdr none

/-! ## Claim theorems -/

/-- C1: `to_short_id` on the payload `[0x00, 0x00, 0x00, 0x01]` yields
`ShortID::Fixed(0x08000001)` — not the claimed `Fixed(0x80000001)` —
because the source ORs the literal `0x8000000` (bit 27), not
`0x80000000` (bit 31); a payload of all zero bytes likewise yields the
non-zero `Fixed(0x08000000)` rather than `LocallyUnique`; a payload
shorter than 4 bytes yields `LocallyUnique`. -/
theorem c1_to_short_id_forces_bit27_not_bit31 :
    to_short_id [0, 0, 0, 1] = ShortID.Fixed 0x08000001 ∧
    to_short_id [0, 0, 0, 1] ≠ ShortID.Fixed 0x80000001 ∧
    to_short_id [0, 0, 0, 0] = ShortID.Fixed 0x08000000 ∧
    to_short_id [1, 2, 3] = ShortID.LocallyUnique := by
  decide

/-- C2 counterexample: with P1 = (version 2, state `Running`) and
P2 = (version 1, state `CredentialsApproved`) sharing a `ShortID` and
with no uniqueness difference, `is_runnable(P1, [P1, P2], policy)` is
`false`, not `true` as the claim states — `Running` fails the initial
state guard of `is_runnable`. -/
theorem c2_running_process_not_runnable_counterexample :
    is_runnable processExRunning
      [some processExRunning, some processExApproved]
      (fun _ _ => false) = false := by
  decide

/-- C2 (amended): with P1 = (version 2, `Running`) and P2 =
(version 1, `CredentialsApproved`) sharing a `ShortID` and no
uniqueness difference, `is_runnable(P2, [P1, P2], policy)` is false
(running P1 blocks it) and `is_runnable(P1, [P1, P2], policy)` is also
false (a `Running` process fails the initial state guard); with P1
instead `Terminated`, `is_runnable(P2, [P1, P2], policy)` is true. -/
theorem c2_runnability_amended :
    is_runnable processExApproved
      [some processExRunning, some processExApproved]
      (fun _ _ => false) = false ∧
    is_runnable processExRunning
      [some processExRunning, some processExApproved]
      (fun _ _ => false) = false ∧
    is_runnable processExApproved
      [some processExTerminated, some processExApproved]
      (fun _ _ => false) = true := by
  decide

/-- C3: assuming the header slice parses and the process is enabled,
`ProcessBinary::create` fails with `IncompatibleKernelVersion (some
(major, minor))` iff the declared major version differs from the
running kernel major or the declared minor exceeds the running kernel
minor; with no kernel-version declaration it fails with
`IncompatibleKernelVersion none` iff `require_kernel_version` is
set. -/
theorem c3_incompatible_kernel_version_iff
    (flash_len flash_addr header_len : Nat) (hdr : TbfHeader)
    (require_kernel_version : Bool) (kmaj kmin : Nat)
    (hlen : header_len ≤ flash_len) (hen : hdr.enabled = true) :
    (∀ maj min,
      hdr.kernel_version = some (maj, min) →
      (ProcessBinary.create flash_len flash_addr header_len (Except.ok hdr)
          require_kernel_version kmaj kmin =
        Except.error
          (ProcessBinaryError.IncompatibleKernelVersion (some (maj, min))) ↔
        (kmaj ≠ maj ∨ kmin < min))) ∧
    (hdr.kernel_version = none →
      (ProcessBinary.create flash_len flash_addr header_len (Except.ok hdr)
          require_kernel_version kmaj kmin =
        Except.error (ProcessBinaryError.IncompatibleKernelVersion none) ↔
        require_kernel_version = true)) :=
  ⟨fun maj min hkv =>
    create_ikv_some_iff flash_len flash_addr header_len hdr
      require_kernel_version kmaj kmin hlen hen maj min hkv,
   fun hkv =>
    create_ikv_none_iff flash_len flash_addr header_len hdr
      require_kernel_version kmaj kmin hlen hen hkv⟩

/-- C3 witness: a header declaring kernel version `(2, 1)` is rejected
by a running kernel `2.0` with the version echoed in the error, and a
header with no declaration is rejected with `version = none` when the
kernel version is required. -/
theorem c3_incompatible_kernel_version_iff_witness :
    ProcessBinary.create 100 0 10 (Except.ok tbfHeaderExampleSome) true 2 0 =
      Except.error
        (ProcessBinaryError.IncompatibleKernelVersion (some (2, 1))) ∧
    ProcessBinary.create 100 0 10 (Except.ok tbfHeaderExampleNone) true 2 0 =
      Except.error (ProcessBinaryError.IncompatibleKernelVersion none) := by
  constructor
  · exact ((c3_incompatible_kernel_version_iff 100 0 10 tbfHeaderExampleSome
      true 2 0 (by decide) (by decide)).1 2 1 (by decide)).mpr (by decide)
  · exact ((c3_incompatible_kernel_version_iff 100 0 10 tbfHeaderExampleNone
      true 2 0 (by decide) (by decide)).2 (by decide)).mpr (by decide)

/-- C4: when `check_done` receives `Ok(Reject)` for the footer at
index 1, the client is notified that the binary is rejected, but the
error the source constructs (`CredentialRejected`) carries no footer
index — the notification is identical to the one produced at footer
index 5, so the claimed `CredentialsRejected(i)` payload is absent. -/
theorem c4_reject_notification_carries_no_index :
    checkDone { footer_index := 1, process_binary := some 42 }
        (Except.ok CheckResult.Reject) =
      ({ footer_index := 1, process_binary := none },
        some (some 42, Except.error EmittedCheckError.credentialRejected)) ∧
    (checkDone { footer_index := 1, process_binary := some 42 }
        (Except.ok CheckResult.Reject)).2 =
      (checkDone { footer_index := 5, process_binary := some 42 }
        (Except.ok CheckResult.Reject)).2 := by
  decide

/-- C5: `get_key_count()` is 1, yet `activate_key(1)` — an index
outside `[0, get_key_count())` — is accepted with `Ok(())` instead of
failing with `InvalidInput`, and the subsequent deferred-call dispatch
delivers `activate_key_done(1, Ok(()))` for the invalid index. -/
theorem c5_activate_key_accepts_out_of_range_index :
    ecdsaVerifierExample.get_key_count = 1 ∧
    ¬ 1 < ecdsaVerifierExample.get_key_count ∧
    (ecdsaVerifierExample.activate_key 1).1 = Except.ok () ∧
    (ecdsaVerifierExample.activate_key 1).1 ≠ Except.error ErrorCode.INVAL ∧
    ((ecdsaVerifierExample.activate_key 1).2.handle_deferred_call).2 =
      [VerifierCallback.activate_key_done 1] := by
  decide

/-- C6: for an app configured with `permitted_arg1 = 10..20` and
`permitted_arg2 = 0..5`, a non-zero non-count command with `arg1 = 3`
is forwarded to the underlying resource as command 0 with absolute
`arg1 = 13`; the same command with `arg1 = 15` (absolute 25, outside
the window) fails `NoSupport` without invoking the resource; and the
count command returns success with value 10, the window length,
whatever the underlying resource would answer. -/
theorem c6_command_restriction_translation
    (driver : Nat → Nat → Nat → CommandReturn)
    (command_num_num c a1 a2 : Nat)
    (hc0 : c ≠ 0) (hcc : c ≠ command_num_num) (hcn : command_num_num ≠ 0)
    (ha2 : a2 < 5) :
    CommandRestrictions.command driver
        [{ app_id := ShortID.Fixed 7, permitted_arg1_start := 10,
           permitted_arg1_end := 20, permitted_arg2_start := 0,
           permitted_arg2_end := 5 }]
        command_num_num c 3 a2 (ShortID.Fixed 7) =
      (driver 0 13 a2, some (0, 13, a2)) ∧
    CommandRestrictions.command driver
        [{ app_id := ShortID.Fixed 7, permitted_arg1_start := 10,
           permitted_arg1_end := 20, permitted_arg2_start := 0,
           permitted_arg2_end := 5 }]
        command_num_num c 15 a2 (ShortID.Fixed 7) =
      (CommandReturn.failure ErrorCode.NOSUPPORT, none) ∧
    CommandRestrictions.command driver
        [{ app_id := ShortID.Fixed 7, permitted_arg1_start := 10,
           permitted_arg1_end := 20, permitted_arg2_start := 0,
           permitted_arg2_end := 5 }]
        command_num_num command_num_num a1 a2 (ShortID.Fixed 7) =
      (CommandReturn.success_u32 10, none) := by
  refine ⟨?_, ?_, ?_⟩ <;>
    simp [CommandRestrictions.command, get_app_permitted, hc0, hcc, hcn] <;>
    omega

/-- C6 witness: the three behaviours at the concrete command numbers
`c = 4`, count command 9, `arg2 = 2`, against a resource that always
answers 99. -/
theorem c6_command_restriction_translation_witness :
    CommandRestrictions.command drvExample
        [{ app_id := ShortID.Fixed 7, permitted_arg1_start := 10,
           permitted_arg1_end := 20, permitted_arg2_start := 0,
           permitted_arg2_end := 5 }]
        9 4 3 2 (ShortID.Fixed 7) =
      (drvExample 0 13 2, some (0, 13, 2)) ∧
    CommandRestrictions.command drvExample
        [{ app_id := ShortID.Fixed 7, permitted_arg1_start := 10,
           permitted_arg1_end := 20, permitted_arg2_start := 0,
           permitted_arg2_end := 5 }]
        9 4 15 2 (ShortID.Fixed 7) =
      (CommandReturn.failure ErrorCode.NOSUPPORT, none) ∧
    CommandRestrictions.command drvExample
        [{ app_id := ShortID.Fixed 7, permitted_arg1_start := 10,
           permitted_arg1_end := 20, permitted_arg2_start := 0,
           permitted_arg2_end := 5 }]
        9 9 0 2 (ShortID.Fixed 7) =
      (CommandReturn.success_u32 10, none) :=
  c6_command_restriction_translation drvExample 9 4 0 2
    (by decide) (by decide) (by decide) (by decide)

/-- C7: for every allotted section rectangle and relative write frame
whose coordinate sums do not overflow, `calculate_absolute_frame`
returns a rectangle wholly contained in the allotted rectangle; in
particular a section `{10, 10, 50, 50}` with relative frame
`{40, 40, 30, 30}` yields exactly `{50, 50, 10, 10}`. -/
theorem c7_absolute_frame_contained (sf af : Frame)
    (h1 : sf.x + af.x < 2 ^ 64) (h2 : sf.y + af.y < 2 ^ 64)
    (h3 : sf.x + sf.width < 2 ^ 64) (h4 : sf.y + sf.height < 2 ^ 64) :
    (sf.x ≤ (calculate_absolute_frame sf af).x ∧
     (calculate_absolute_frame sf af).x +
       (calculate_absolute_frame sf af).width ≤ sf.x + sf.width ∧
     sf.y ≤ (calculate_absolute_frame sf af).y ∧
     (calculate_absolute_frame sf af).y +
       (calculate_absolute_frame sf af).height ≤ sf.y + sf.height) ∧
    calculate_absolute_frame
      { x := 10, y := 10, width := 50, height := 50 }
      { x := 40, y := 40, width := 30, height := 30 } =
      { x := 50, y := 50, width := 10, height := 10 } := by
  constructor
  · simp only [calculate_absolute_frame]
    omega
  · decide

/-- C7 witness: containment at the concrete section `{10, 10, 50, 50}`
and relative frame `{40, 40, 30, 30}`. -/
theorem c7_absolute_frame_contained_witness :
    10 ≤ (calculate_absolute_frame
      { x := 10, y := 10, width := 50, height := 50 }
      { x := 40, y := 40, width := 30, height := 30 }).x ∧
    (calculate_absolute_frame
      { x := 10, y := 10, width := 50, height := 50 }
      { x := 40, y := 40, width := 30, height := 30 }).x +
      (calculate_absolute_frame
        { x := 10, y := 10, width := 50, height := 50 }
        { x := 40, y := 40, width := 30, height := 30 }).width ≤ 10 + 50 ∧
    10 ≤ (calculate_absolute_frame
      { x := 10, y := 10, width := 50, height := 50 }
      { x := 40, y := 40, width := 30, height := 30 }).y ∧
    (calculate_absolute_frame
      { x := 10, y := 10, width := 50, height := 50 }
      { x := 40, y := 40, width := 30, height := 30 }).y +
      (calculate_absolute_frame
        { x := 10, y := 10, width := 50, height := 50 }
        { x := 40, y := 40, width := 30, height := 30 }).height ≤ 10 + 50 :=
  (c7_absolute_frame_contained
    { x := 10, y := 10, width := 50, height := 50 }
    { x := 40, y := 40, width := 30, height := 30 }
    (by decide) (by decide) (by decide) (by decide)).1

/-- C8: a 6-pixel write into a 4x2 frame produces TRANSFER_TO_HOST_2D
sub-rectangles summing to 6 pixels, but the second sub-rectangle
`{0, 2, 2, 1}` lies at row 2, outside the 2-row frame; and a 2-pixel
write produces no transfer at all (0 of the 2 supplied pixels) while
the client still receives `write_complete(Ok)` — in both cases the
`write_complete` callback fires only after the
`RESOURCE_DETACH_BACKING` response, never directly after the last
flush. -/
theorem c8_draw_drops_partial_row :
    GpuSt.set_write_frame 64 gpuExFresh 0 0 4 2 =
      (Except.ok (), gpuExFrameSet) ∧
    gpuExFrameSet.gpu_handle_deferred_call = some (gpuExIdle, true) ∧
    GpuSt.write 64 gpuExIdle 0 24 false = some (Except.ok (), gpuExWrite6) ∧
    (GpuSt.drawRun 64 6 gpuExWrite6).map Prod.fst = some gpuExEvents6 ∧
    transferredPixels gpuExEvents6 = 6 ∧
    GpuEvent.cmdTransferToHost { x := 0, y := 2, width := 2, height := 1 } 16 ∈
      gpuExEvents6 ∧
    2 + 1 > gpuExIdle.draw_rect.y + gpuExIdle.draw_rect.height ∧
    GpuSt.write 64 gpuExIdle 0 8 false = some (Except.ok (), gpuExWrite2) ∧
    (GpuSt.drawRun 64 5 gpuExWrite2).map Prod.fst =
      some [GpuEvent.cmdResourceDetachBacking, GpuEvent.cbWriteComplete true] ∧
    transferredPixels
      [GpuEvent.cmdResourceDetachBacking, GpuEvent.cbWriteComplete true] = 0 ∧
    (8 : Nat) / 4 = 2 := by
  decide

/-- C9: a second `verify` call accepted before the first call's
deferred callback was dispatched also returns `Ok`, and the next
deferred-call dispatch delivers exactly one `verification_done`
carrying the second call's outcome and the second call's hash and
signature buffers; a further dispatch delivers nothing, so the first
call's buffers are never returned to the client. -/
theorem c9_second_verify_supersedes_first (v0 : EcdsaVerifier)
    (h1 g1 h2 g2 : Nat) (o1 o2 : Bool) (hk : v0.has_key = true) :
    (v0.verify h1 g1 true o1).1 = Except.ok () ∧
    ((v0.verify h1 g1 true o1).2.verify h2 g2 true o2).1 = Except.ok () ∧
    (((v0.verify h1 g1 true o1).2.verify h2 g2 true
        o2).2.handle_deferred_call).2 =
      [VerifierCallback.verification_done o2 h2 g2] ∧
    ((((v0.verify h1 g1 true o1).2.verify h2 g2 true
        o2).2.handle_deferred_call).1.handle_deferred_call).2 = [] := by
  simp [EcdsaVerifier.verify, EcdsaVerifier.handle_deferred_call, hk]

/-- C9 witness: the double-verify scenario on the freshly constructed
verifier with buffers 1, 2 (first call) and 3, 4 (second call). -/
theorem c9_second_verify_supersedes_first_witness :
    (ecdsaVerifierExample.verify 1 2 true true).1 = Except.ok () ∧
    ((ecdsaVerifierExample.verify 1 2 true true).2.verify 3 4 true
        false).1 = Except.ok () ∧
    (((ecdsaVerifierExample.verify 1 2 true true).2.verify 3 4 true
        false).2.handle_deferred_call).2 =
      [VerifierCallback.verification_done false 3 4] ∧
    ((((ecdsaVerifierExample.verify 1 2 true true).2.verify 3 4 true
        false).2.handle_deferred_call).1.handle_deferred_call).2 = [] :=
  c9_second_verify_supersedes_first ecdsaVerifierExample 1 2 3 4 true false
    (by decide)

set_option maxHeartbeats 2000000 in
/-- C10: whenever `set_write_frame` returns an error, the stored draw
area, draw cursor, remaining-pixel count, device state, and
deferred-call bookkeeping are all left unchanged; and an error occurs
exactly when the device is not idle, a coordinate does not fit `u32`,
a coordinate sum overflows `u32`, the rectangle exceeds the screen
dimensions, or the pixel count overflows `usize`. -/
theorem c10_set_write_frame_atomic_on_error (ub x y w h : Nat) (g : GpuSt) :
    (∀ e, (GpuSt.set_write_frame ub g x y w h).1 = Except.error e →
      (GpuSt.set_write_frame ub g x y w h).2 = g) ∧
    ((∃ e, (GpuSt.set_write_frame ub g x y w h).1 = Except.error e) ↔
      (g.state ≠ VirtIOGPUState.Idle ∨ x ≥ 2 ^ 32 ∨ y ≥ 2 ^ 32 ∨ w ≥ 2 ^ 32 ∨
        h ≥ 2 ^ 32 ∨ x + w ≥ 2 ^ 32 ∨ y + h ≥ 2 ^ 32 ∨
        (x + w > g.width ∨ y + h > g.height) ∨ w * h ≥ 2 ^ ub)) := by
  refine ⟨?_, ?_, ?_⟩
  · intro e he
    unfold GpuSt.set_write_frame at he ⊢
    split_ifs at he ⊢ <;> first | rfl | simp at he
  · rintro ⟨e, he⟩
    unfold GpuSt.set_write_frame at he
    split_ifs at he with h1 h2 h3 h4 h5 h6 h7 h8 h9 <;> tauto
  · intro hd
    unfold GpuSt.set_write_frame
    split_ifs with h1 h2 h3 h4 h5 h6 h7 h8 h9 <;>
      first | exact ⟨_, rfl⟩ | (exfalso; tauto)

/-- C10 witness: a `set_write_frame` call while the device is busy
(state `SettingWriteFrame`) fails and leaves the state unchanged. -/
theorem c10_set_write_frame_atomic_on_error_witness :
    (GpuSt.set_write_frame 64 gpuExFrameSet 0 0 1 1).2 = gpuExFrameSet :=
  (c10_set_write_frame_atomic_on_error 64 0 0 1 1 gpuExFrameSet).1
    ErrorCode.BUSY (by decide)
